import Mathlib

/-!
Shallow embedding of the secretstore-substrate-service task synchronization
bridge (`src/lib.rs` and `src/transaction_pool.rs`), together with theorems
settling the specification claims about the pending-task pager, the
event-to-task classifier, the block adapter and the response submitter.

Machine integers (`usize`, hashes, ids) are modelled as `Nat`; the index
arithmetic of the pager never wraps in any terminating scan, so overflow is
immaterial.  Fallible queries (`Result<_, String>`) are modelled as
`Except String _`, and `unimplemented!()` panics as an explicit
`PanicOr.panicked` value.  Logging side effects are reified as lists of
`LogLine` values, and transaction submission as the list of calls forwarded
to the underlying pool.
-/

set_option maxHeartbeats 1000000

namespace SecretStoreService

/-- 256-bit server key identifier (`ServerKeyId`), modelled as `Nat`. -/
abbrev ServerKeyId := Nat

/-- 160-bit account address (`Address`), modelled as `Nat`. -/
abbrev Address := Nat

/-- Key server identifier (`KeyServerId`), the same id space as `Address`. -/
abbrev KeyServerId := Nat

/-- Public key payload (`Public`), modelled as `Nat`. -/
abbrev Public := Nat

/-- Transaction hash returned by the underlying transaction pool. -/
abbrev TransactionHash := Nat

/-- Opaque artifacts of document key common retrieval (unused payload). -/
abbrev DocumentKeyCommonRetrievalArtifacts := Nat

/-- Opaque artifacts of document key shadow retrieval (unused payload). -/
abbrev DocumentKeyShadowRetrievalArtifacts := Nat

/-- Artifacts of server key generation; the code only reads the `key` field. -/
structure ServerKeyGenerationArtifacts where
  key : Public
  deriving DecidableEq

/-- Requester identity (`parity_secretstore_primitives::requester::Requester`);
the bridge only constructs the `Address` variant. -/
inductive Requester
  | Address (address : Address)
  | Public (public : Public)
  deriving DecidableEq

/-- Service task (`ServiceTask`); the bridge only constructs
`GenerateServerKey`; `other` stands for the remaining kinds, which this crate
treats as opaque values (the pager moves tasks around without inspecting
them). -/
inductive ServiceTask
  | GenerateServerKey (key_id : ServerKeyId) (requester : Requester) (threshold : Nat)
  | other (tag : Nat)
  deriving DecidableEq

/-- Blockchain service task (`BlockchainServiceTask`); this crate only builds
the `Regular (origin, task)` variant. -/
inductive BlockchainServiceTask
  | Regular (origin : Address) (task : ServiceTask)
  deriving DecidableEq

/-- Secret Store runtime event (`substrate_secret_store_runtime::Event`);
`ServerKeyGenerationRequested` is the only kind handled by
`event_into_task`, `other` stands for every remaining event kind. -/
inductive SecretStoreEvent
  | ServerKeyGenerationRequested (key_id : ServerKeyId) (requester_address : Address)
      (threshold : Nat)
  | other (tag : Nat)
  deriving DecidableEq

/-- A raw block event, which is maybe an event of the Secret Store module
(`MaybeSecretStoreEvent`): `unrelated` events convert to `none`. -/
inductive MaybeEvent
  | secretStore (event : SecretStoreEvent)
  | unrelated (tag : Nat)
  deriving DecidableEq

/-- `MaybeSecretStoreEvent::as_secret_store_event`. -/
def as_secret_store_event : MaybeEvent → Option SecretStoreEvent
  | MaybeEvent.secretStore event => some event
  | MaybeEvent.unrelated _ => none

/-- Result of running code that may hit a Rust `unimplemented!()` panic. -/
inductive PanicOr (α : Type)
  | ok (value : α)
  | panicked (message : String)
  deriving DecidableEq

/-- Secret Store module call (`SecretStoreCall`): `lib.rs` declares exactly
one variant, `ServerKeyGenerated(ServerKeyId, Public)`. -/
inductive SecretStoreCall
  | ServerKeyGenerated (key_id : ServerKeyId) (server_key_public : Public)
  deriving DecidableEq

/-- The `Blockchain` trait of `lib.rs`, as a record of query functions.
Paged task queries take a half-open index range, modelled as a `Nat` pair.
`current_key_servers_set` takes no block argument, exactly as in the trait
(its documentation says it answers at the best known block). -/
structure Blockchain (BlockHash : Type) where
  block_events : BlockHash → List MaybeEvent
  current_key_servers_set : List KeyServerId
  server_key_generation_tasks :
    BlockHash → Nat × Nat → Except String (List BlockchainServiceTask)
  is_server_key_generation_response_required :
    ServerKeyId → KeyServerId → Except String Bool
  server_key_retrieval_tasks :
    BlockHash → Nat × Nat → Except String (List BlockchainServiceTask)
  document_key_store_tasks :
    BlockHash → Nat × Nat → Except String (List BlockchainServiceTask)
  document_key_shadow_retrieval_tasks :
    BlockHash → Nat × Nat → Except String (List BlockchainServiceTask)

/-- One structured log line emitted by `submit_response_transaction`. -/
inductive LogLine
  | checkFailed (request : String) (err : String)
  | submitFailed (request : String) (err : String)
  | submitSucceeded (request : String) (transaction_hash : TransactionHash)
  deriving DecidableEq

/-- Observable outcome of one `submit_response_transaction` call: the log
lines emitted, and the calls actually forwarded to the underlying
transaction pool's `submit_transaction` (in order). -/
structure SubmitOutcome where
  logs : List LogLine
  submitted : List SecretStoreCall
  deriving DecidableEq

/-- The code of `submit_response_transaction` after its first `match`: build
the response via `prepare_response`, forward it to the pool, and log the
result (`transaction_pool.rs` lines 77-96).  `logs_so_far` carries any log
line already emitted by the first `match`. -/
def submit_and_log (format_request : String) (logs_so_far : List LogLine)
    (prepare_response : Except String SecretStoreCall)
    (submit_transaction : SecretStoreCall → Except String TransactionHash) :
    SubmitOutcome :=
  match prepare_response with
  | Except.error e => ⟨logs_so_far ++ [LogLine.submitFailed format_request e], []⟩
  | Except.ok transaction =>
    match submit_transaction transaction with
    | Except.ok transaction_hash =>
      ⟨logs_so_far ++ [LogLine.submitSucceeded format_request transaction_hash],
        [transaction]⟩
    | Except.error e =>
      ⟨logs_so_far ++ [LogLine.submitFailed format_request e], [transaction]⟩

/-- `SubstrateTransactionPool::submit_response_transaction`
(`transaction_pool.rs` lines 60-97).  Note the first `match` in the source:
the `Ok(false)` arm is `return`, the `Ok(true)` arm is `()`, and the
`Err(error)` arm only invokes the `error!` macro — it does NOT return, so
after logging the check failure control falls through to the
prepare-and-submit code, exactly as modelled here. -/
def submit_response_transaction (format_request : String)
    (is_response_required : Except String Bool)
    (prepare_response : Except String SecretStoreCall)
    (submit_transaction : SecretStoreCall → Except String TransactionHash) :
    SubmitOutcome :=
  match is_response_required with
  | Except.ok true =>
    submit_and_log format_request [] prepare_response submit_transaction
  | Except.ok false => ⟨[], []⟩
  | Except.error e =>
    submit_and_log format_request [LogLine.checkFailed format_request e]
      prepare_response submit_transaction

/-- The `SubstrateTransactionPool` struct: blockchain handle, underlying
pool (represented by its `submit_transaction` function) and this key
server's address. -/
structure SubstrateTransactionPool (BlockHash : Type) where
  blockchain : Blockchain BlockHash
  submit_transaction : SecretStoreCall → Except String TransactionHash
  key_server_address : Address

/-- The request description formatted by `publish_generated_server_key`. -/
def formatServerKeyGenerationSuccess (key_id : ServerKeyId) : String :=
  "ServerKeyGenerationSuccess(" ++ toString key_id ++ ")"

/-- `publish_generated_server_key` (`transaction_pool.rs` lines 107-118). -/
def publish_generated_server_key (H : Type)
    (pool : SubstrateTransactionPool H) (_origin : Address)
    (key_id : ServerKeyId) (artifacts : ServerKeyGenerationArtifacts) :
    SubmitOutcome :=
  submit_response_transaction
    (formatServerKeyGenerationSuccess key_id)
    (pool.blockchain.is_server_key_generation_response_required key_id
      pool.key_server_address)
    (Except.ok (SecretStoreCall.ServerKeyGenerated key_id artifacts.key))
    pool.submit_transaction

/-- `publish_stored_document_key` (`transaction_pool.rs` line 149): the body
is `unimplemented!()`. -/
def publish_stored_document_key (H : Type)
    (_pool : SubstrateTransactionPool H) (_contract_address : Address)
    (_key_id : ServerKeyId) : PanicOr SubmitOutcome :=
  PanicOr.panicked "not implemented"

/-- `publish_document_key_store_error`: body is `unimplemented!()`. -/
def publish_document_key_store_error (H : Type)
    (_pool : SubstrateTransactionPool H) (_contract_address : Address)
    (_key_id : ServerKeyId) : PanicOr SubmitOutcome :=
  PanicOr.panicked "not implemented"

/-- `publish_retrieved_document_key_common`: body is `unimplemented!()`. -/
def publish_retrieved_document_key_common (H : Type)
    (_pool : SubstrateTransactionPool H) (_contract_address : Address)
    (_key_id : ServerKeyId) (_requester : Requester)
    (_artifacts : DocumentKeyCommonRetrievalArtifacts) : PanicOr SubmitOutcome :=
  PanicOr.panicked "not implemented"

/-- `publish_document_key_common_retrieval_error`: body is
`unimplemented!()`. -/
def publish_document_key_common_retrieval_error (H : Type)
    (_pool : SubstrateTransactionPool H) (_contract_address : Address)
    (_key_id : ServerKeyId) (_requester : Requester) : PanicOr SubmitOutcome :=
  PanicOr.panicked "not implemented"

/-- `publish_retrieved_document_key_personal`: body is `unimplemented!()`. -/
def publish_retrieved_document_key_personal (H : Type)
    (_pool : SubstrateTransactionPool H) (_contract_address : Address)
    (_key_id : ServerKeyId) (_requester : Requester)
    (_artifacts : DocumentKeyShadowRetrievalArtifacts) : PanicOr SubmitOutcome :=
  PanicOr.panicked "not implemented"

/-- `publish_document_key_personal_retrieval_error`: body is
`unimplemented!()`. -/
def publish_document_key_personal_retrieval_error (H : Type)
    (_pool : SubstrateTransactionPool H) (_contract_address : Address)
    (_key_id : ServerKeyId) (_requester : Requester) : PanicOr SubmitOutcome :=
  PanicOr.panicked "not implemented"

/-- Transactions actually forwarded to the pool by a possibly-panicking
publish call: a panic submits nothing. -/
def submittedTransactions : PanicOr SubmitOutcome → List SecretStoreCall
  | PanicOr.ok outcome => outcome.submitted
  | PanicOr.panicked _ => []

/-- `event_into_task` (`lib.rs` lines 279-297).  The only supported event is
`ServerKeyGenerationRequested`; it becomes one `GenerateServerKey` task with
the requester wrapped as `Requester::Address` and the default origin
(`Default::default()`, i.e. the zero address).  Every other Secret Store
event hits `unimplemented!()`, i.e. panics. -/
def event_into_task (event : SecretStoreEvent) :
    PanicOr (Option BlockchainServiceTask) :=
  let origin : Address := default
  match event with
  | SecretStoreEvent.ServerKeyGenerationRequested key_id requester_address threshold =>
    PanicOr.ok (some (BlockchainServiceTask.Regular origin
      (ServiceTask.GenerateServerKey key_id
        (Requester.Address requester_address) threshold)))
  | SecretStoreEvent.other _ => PanicOr.panicked "not implemented"

/-- The task list produced by consuming `new_tasks()`'s iterator
(`lib.rs` lines 184-192): each block event is first filtered through
`as_secret_store_event` (non-Secret-Store events are silently dropped),
then mapped through `event_into_task`.  A panic raised while classifying an
event aborts the iteration, which is what consuming the lazy Rust iterator
does. -/
def new_tasks_of_events : List MaybeEvent → PanicOr (List BlockchainServiceTask)
  | [] => PanicOr.ok []
  | event :: rest =>
    match as_secret_store_event event with
    | none => new_tasks_of_events rest
    | some secret_store_event =>
      match event_into_task secret_store_event with
      | PanicOr.panicked message => PanicOr.panicked message
      | PanicOr.ok none => new_tasks_of_events rest
      | PanicOr.ok (some task) =>
        match new_tasks_of_events rest with
        | PanicOr.panicked message => PanicOr.panicked message
        | PanicOr.ok tasks => PanicOr.ok (task :: tasks)

/-- The `SubstrateBlock` struct: one block reference, the shared blockchain
handle and this key server's address. -/
structure SubstrateBlock (BlockHash : Type) where
  block_hash : BlockHash
  blockchain : Blockchain BlockHash
  key_server_address : Address

/-- `SubstrateBlock::new_tasks` (`lib.rs` lines 184-192), with the produced
iterator fully consumed into a list. -/
def SubstrateBlock.new_tasks (H : Type) (b : SubstrateBlock H) :
    PanicOr (List BlockchainServiceTask) :=
  new_tasks_of_events (b.blockchain.block_events b.block_hash)

/-- `SubstrateBlock::current_key_servers_set` (`lib.rs` lines 229-231):
delegates to `Blockchain::current_key_servers_set`, passing no block
reference. -/
def SubstrateBlock.current_key_servers_set (H : Type) (b : SubstrateBlock H) :
    List KeyServerId :=
  b.blockchain.current_key_servers_set

/-- `PENDING_RANGE_LENGTH` (`lib.rs` line 247). -/
def PENDING_RANGE_LENGTH : Nat := 16

/-- `std::usize::MAX` for the 64-bit targets this service is built for. -/
def usizeMax : Nat := 2 ^ 64 - 1

/-- State of `PendingTasksIterator` (`lib.rs` lines 234-238): the FIFO
buffer of fetched-but-unemitted tasks and the remaining index range
`rangeStart..rangeEnd` (half-open).  The query function is kept outside the
structure as an explicit argument of `next`. -/
structure PendingTasksIterator where
  pending : List BlockchainServiceTask
  rangeStart : Nat
  rangeEnd : Nat
  deriving DecidableEq

/-- The task list a fetched query result contributes to the buffer
(`lib.rs` lines 260-267): a successful page contributes its tasks, a failed
page is logged and contributes nothing. -/
def resultTasks (result : Except String (List BlockchainServiceTask)) :
    List BlockchainServiceTask :=
  match result with
  | Except.ok tasks => tasks
  | Except.error _ => []

/-- `PendingTasksIterator::next` (`lib.rs` lines 246-275).  The source is a
`loop`; one call runs at most two iterations, which are unrolled here:
(1) a non-empty buffer is popped immediately; (2) an empty remaining range
is terminal; (3) otherwise the window
`[rangeStart, rangeStart + PENDING_RANGE_LENGTH)` is fetched into the
(empty) buffer, the range advances to the next window exactly when the
buffer now holds `PENDING_RANGE_LENGTH` items and otherwise collapses to
the empty range `rangeEnd..rangeEnd`; the second loop iteration then pops
the front of the buffer, or — when the fetch contributed nothing, so the
range has just collapsed — returns `None`. -/
def PendingTasksIterator.next
    (get_pending_tasks : Nat × Nat → Except String (List BlockchainServiceTask))
    (self : PendingTasksIterator) :
    Option BlockchainServiceTask × PendingTasksIterator :=
  match self.pending with
  | pending_task :: rest =>
    (some pending_task, ⟨rest, self.rangeStart, self.rangeEnd⟩)
  | [] =>
    if self.rangeStart = self.rangeEnd then
      (none, self)
    else
      let next_range_start := self.rangeStart + PENDING_RANGE_LENGTH
      let pending := resultTasks (get_pending_tasks (self.rangeStart, next_range_start))
      let next_range :=
        if pending.length = PENDING_RANGE_LENGTH then
          (next_range_start, self.rangeEnd)
        else
          (self.rangeEnd, self.rangeEnd)
      match pending with
      | pending_task :: rest =>
        (some pending_task, ⟨rest, next_range.1, next_range.2⟩)
      | [] => (none, ⟨[], next_range.1, next_range.2⟩)

/-- The fresh pager built for each category by `pending_tasks()`
(`lib.rs` lines 208-225): empty buffer, range `0..usize::MAX`. -/
def initIterator : PendingTasksIterator := ⟨[], 0, usizeMax⟩

/-- Pull up to `fuel` tasks from one pager, stopping at the first
end-of-sequence signal; returns the emitted tasks in order together with
the state the pager was left in. -/
def pagerRun
    (get : Nat × Nat → Except String (List BlockchainServiceTask)) :
    Nat → PendingTasksIterator → List BlockchainServiceTask × PendingTasksIterator
  | 0, it => ([], it)
  | fuel + 1, it =>
    match PendingTasksIterator.next get it with
    | (none, it') => ([], it')
    | (some task, it') =>
      let r := pagerRun get fuel it'
      (task :: r.1, r.2)

/-- The window that a `next` call on state `it` passes to the query
function, if any: a query happens exactly when the buffer is empty and the
remaining range is non-empty, and then the window is
`[rangeStart, rangeStart + PENDING_RANGE_LENGTH)` (`lib.rs` lines 258-260). -/
def nextWindow (it : PendingTasksIterator) : List (Nat × Nat) :=
  match it.pending with
  | _ :: _ => []
  | [] =>
    if it.rangeStart = it.rangeEnd then []
    else [(it.rangeStart, it.rangeStart + PENDING_RANGE_LENGTH)]

/-- `pagerRun` instrumented with the list of windows passed to the query
function, in order. -/
def pagerRunTrace
    (get : Nat × Nat → Except String (List BlockchainServiceTask)) :
    Nat → PendingTasksIterator →
      List BlockchainServiceTask × List (Nat × Nat) × PendingTasksIterator
  | 0, it => ([], [], it)
  | fuel + 1, it =>
    match PendingTasksIterator.next get it with
    | (none, it') => ([], nextWindow it, it')
    | (some task, it') =>
      let r := pagerRunTrace get fuel it'
      (task :: r.1, nextWindow it ++ r.2.1, r.2.2)

/-- One category of the chained `pending_tasks()` iterator: the category's
query function paired with its pager state. -/
abbrev ChainedCategory :=
  (Nat × Nat → Except String (List BlockchainServiceTask)) × PendingTasksIterator

/-- One `next` call on the chained iterator (`Iterator::chain` semantics):
poll the front pager; if it signals end-of-sequence, drop it and poll the
rest within the same call. -/
def chainNext : List ChainedCategory →
    Option BlockchainServiceTask × List ChainedCategory
  | [] => (none, [])
  | (get, it) :: rest =>
    match PendingTasksIterator.next get it with
    | (some task, it') => (some task, (get, it') :: rest)
    | (none, _) => chainNext rest

/-- Pull up to `fuel` tasks from the chained iterator, stopping at the
first end-of-sequence signal. -/
def chainRun : Nat → List ChainedCategory →
    List BlockchainServiceTask × List ChainedCategory
  | 0, cats => ([], cats)
  | fuel + 1, cats =>
    match chainNext cats with
    | (none, cats') => ([], cats')
    | (some task, cats') =>
      let r := chainRun fuel cats'
      (task :: r.1, r.2)

/-- `SubstrateBlock::pending_tasks` (`lib.rs` lines 194-227): four fresh
pagers, one per backlog category, bound to this block's reference and
chained in the fixed order generation, retrieval, document store, document
shadow retrieval. -/
def SubstrateBlock.pending_tasks (H : Type) (b : SubstrateBlock H) :
    List ChainedCategory :=
  [ (b.blockchain.server_key_generation_tasks b.block_hash, initIterator),
    (b.blockchain.server_key_retrieval_tasks b.block_hash, initIterator),
    (b.blockchain.document_key_store_tasks b.block_hash, initIterator),
    (b.blockchain.document_key_shadow_retrieval_tasks b.block_hash, initIterator) ]

/-- A distinct opaque task, for concrete scenarios. -/
def sampleTask (i : Nat) : BlockchainServiceTask :=
  BlockchainServiceTask.Regular 0 (ServiceTask.other i)

/-- A blockchain whose queries all succeed with empty results and whose
response check answers `Ok(true)`. -/
def emptyBlockchain : Blockchain Nat where
  block_events := fun _ => []
  current_key_servers_set := []
  server_key_generation_tasks := fun _ _ => Except.ok []
  is_server_key_generation_response_required := fun _ _ => Except.ok true
  server_key_retrieval_tasks := fun _ _ => Except.ok []
  document_key_store_tasks := fun _ _ => Except.ok []
  document_key_shadow_retrieval_tasks := fun _ _ => Except.ok []

/-- A blockchain whose response-required check fails. -/
def failingCheckBlockchain : Blockchain Nat :=
  { emptyBlockchain with
    is_server_key_generation_response_required := fun _ _ =>
      Except.error "check failed" }

/-- Pool over `failingCheckBlockchain` whose submissions succeed with
hash 99. -/
def failingCheckPool : SubstrateTransactionPool Nat :=
  ⟨failingCheckBlockchain, fun _ => Except.ok 99, 7⟩

/-- Pool whose response check answers `Ok(true)`. -/
def requiredPool : SubstrateTransactionPool Nat :=
  ⟨emptyBlockchain, fun _ => Except.ok 42, 7⟩

/-- Pool whose response check answers `Ok(false)`. -/
def notRequiredPool : SubstrateTransactionPool Nat :=
  ⟨{ emptyBlockchain with
      is_server_key_generation_response_required := fun _ _ => Except.ok false },
    fun _ => Except.ok 42, 7⟩

/-- A blockchain whose per-block data (events) differ between blocks 0 and
1 and whose key server set is `[1, 2]`. -/
def twoBlockBlockchain : Blockchain Nat :=
  { emptyBlockchain with
    block_events := fun h => if h = 0 then [MaybeEvent.unrelated 0] else []
    current_key_servers_set := [1, 2] }

/-- Adapter for block 0 of `twoBlockBlockchain`. -/
def blockAdapterA : SubstrateBlock Nat := ⟨0, twoBlockBlockchain, 9⟩

/-- Adapter for block 1 of `twoBlockBlockchain`. -/
def blockAdapterB : SubstrateBlock Nat := ⟨1, twoBlockBlockchain, 9⟩

/-- Adapter for a block with a single unsupported Secret Store event. -/
def unsupportedEventBlock : SubstrateBlock Nat :=
  ⟨0,
    { emptyBlockchain with
      block_events := fun _ => [MaybeEvent.secretStore (SecretStoreEvent.other 0)] },
    9⟩

/-- Backlog pages for the spec scenario: a full window of 16 tasks, then a
short window of 2 tasks. -/
def scenarioPages : Nat → List BlockchainServiceTask := fun i =>
  if i = 0 then (List.range 16).map sampleTask
  else if i = 1 then [sampleTask 16, sampleTask 17]
  else []

/-- Query function serving `scenarioPages` by window index. -/
def scenarioGet : Nat × Nat → Except String (List BlockchainServiceTask) :=
  fun r => Except.ok (scenarioPages (r.1 / 16))

/-- Query function that always fails. -/
def alwaysFailGet : Nat × Nat → Except String (List BlockchainServiceTask) :=
  fun _ => Except.error "boom"

/-- Query function that always succeeds with an empty page. -/
def alwaysEmptyGet : Nat × Nat → Except String (List BlockchainServiceTask) :=
  fun _ => Except.ok []

/-- An over-long page of 17 tasks (one more than the window size). -/
def longPage : List BlockchainServiceTask := (List.range 17).map sampleTask

/-- Query function returning the 17-task page on the first window. -/
def longPageGet : Nat × Nat → Except String (List BlockchainServiceTask) :=
  fun r => if r.1 = 0 then Except.ok longPage else Except.ok []

/-- A blockchain with small non-empty backlogs in all four categories. -/
def fourCategoryBlockchain : Blockchain Nat :=
  { emptyBlockchain with
    server_key_generation_tasks := fun _ r =>
      Except.ok (if r.1 = 0 then [sampleTask 1, sampleTask 2] else [])
    server_key_retrieval_tasks := fun _ r =>
      Except.ok (if r.1 = 0 then [sampleTask 3] else [])
    document_key_store_tasks := fun _ r =>
      Except.ok (if r.1 = 0 then [sampleTask 4] else [])
    document_key_shadow_retrieval_tasks := fun _ r =>
      Except.ok (if r.1 = 0 then [sampleTask 5] else []) }

/-- Adapter over `fourCategoryBlockchain`. -/
def fourCategoryBlock : SubstrateBlock Nat := ⟨0, fourCategoryBlockchain, 9⟩

/-- The full backlog of one category whose pages are `pages 0 .. pages k`:
their concatenation in window order. -/
def backlogOf (pages : Nat → List BlockchainServiceTask) (k : Nat) :
    List BlockchainServiceTask :=
  ((List.range (k + 1)).map pages).flatten

/-- A category's query function has the canonical terminating backlog
shape: windows `0..k-1` return full 16-task pages, window `k` returns a
short page, and the backlog ends well below `usize::MAX`. -/
def CategoryBacklog
    (get : Nat × Nat → Except String (List BlockchainServiceTask))
    (pages : Nat → List BlockchainServiceTask) (k : Nat) : Prop :=
  (∀ i, i ≤ k → get (16 * i, 16 * i + 16) = Except.ok (pages i))
  ∧ (∀ i, i < k → (pages i).length = 16)
  ∧ (pages k).length < 16
  ∧ 16 * k < usizeMax

/-- Generation-category pages of `fourCategoryBlockchain`. -/
def wPagesGen : Nat → List BlockchainServiceTask := fun i =>
  if i = 0 then [sampleTask 1, sampleTask 2] else []

/-- Retrieval-category pages of `fourCategoryBlockchain`. -/
def wPagesRet : Nat → List BlockchainServiceTask := fun i =>
  if i = 0 then [sampleTask 3] else []

/-- Document-store-category pages of `fourCategoryBlockchain`. -/
def wPagesStore : Nat → List BlockchainServiceTask := fun i =>
  if i = 0 then [sampleTask 4] else []

/-- Shadow-retrieval-category pages of `fourCategoryBlockchain`. -/
def wPagesShadow : Nat → List BlockchainServiceTask := fun i =>
  if i = 0 then [sampleTask 5] else []

/-!  ## Theorems: response submitter  -/

/-- **C1** (code-bug evidence).  The claim says a failing "is response
required" query makes the publish call log and stop with no transaction.
The source's `match` arm `Err(error) => error!(..)` has no `return`, so
control falls through to prepare-and-submit: at this concrete failing input
the check error is logged and the response transaction is nonetheless
prepared and submitted to the pool. -/
theorem publish_submits_despite_check_error :
    (publish_generated_server_key Nat failingCheckPool 0 5 ⟨11⟩).submitted
      = [SecretStoreCall.ServerKeyGenerated 5 11]
    ∧ (publish_generated_server_key Nat failingCheckPool 0 5 ⟨11⟩).logs
      = [LogLine.checkFailed "ServerKeyGenerationSuccess(5)" "check failed",
         LogLine.submitSucceeded "ServerKeyGenerationSuccess(5)" 99] := by
  constructor <;> rfl

/-- **C5**.  A publish call whose "is response required" check answers
`Ok(false)` forwards zero transactions to the pool, so two calls for the
same successful outcome, of which the second sees `Ok(false)` (and the
first `Ok(true)`), forward exactly one transaction in total. -/
theorem publish_idempotent_when_not_required (H : Type)
    (pool1 pool2 : SubstrateTransactionPool H) (origin : Address)
    (key_id : ServerKeyId) (artifacts : ServerKeyGenerationArtifacts)
    (h1 : pool1.blockchain.is_server_key_generation_response_required key_id
            pool1.key_server_address = Except.ok true)
    (h2 : pool2.blockchain.is_server_key_generation_response_required key_id
            pool2.key_server_address = Except.ok false) :
    (publish_generated_server_key H pool2 origin key_id artifacts).submitted = []
    ∧ (publish_generated_server_key H pool1 origin key_id artifacts).submitted.length
      + (publish_generated_server_key H pool2 origin key_id artifacts).submitted.length
      = 1 := by
  have ha : (publish_generated_server_key H pool2 origin key_id artifacts).submitted
      = [] := by
    simp [publish_generated_server_key, submit_response_transaction, h2]
  have hb : (publish_generated_server_key H pool1 origin key_id
      artifacts).submitted.length = 1 := by
    simp only [publish_generated_server_key, submit_response_transaction, h1,
      submit_and_log]
    cases pool1.submit_transaction
        (SecretStoreCall.ServerKeyGenerated key_id artifacts.key) <;> rfl
  exact ⟨ha, by rw [ha, hb]; rfl⟩

/-- Witness for C5 at a concrete pair of pools. -/
theorem publish_idempotent_when_not_required_witness :
    (publish_generated_server_key Nat notRequiredPool 0 5 ⟨11⟩).submitted = []
    ∧ (publish_generated_server_key Nat requiredPool 0 5 ⟨11⟩).submitted.length
      + (publish_generated_server_key Nat notRequiredPool 0 5 ⟨11⟩).submitted.length
      = 1 :=
  publish_idempotent_when_not_required Nat requiredPool notRequiredPool 0 5 ⟨11⟩ rfl rfl

/-- **C9**.  Every document-key response path is `unimplemented!()`: each
call panics (fails loudly) rather than completing silently, and no
transaction is forwarded to the pool. -/
theorem document_key_response_paths_panic (H : Type)
    (pool : SubstrateTransactionPool H) (contract_address : Address)
    (key_id : ServerKeyId) (requester : Requester)
    (common_artifacts : DocumentKeyCommonRetrievalArtifacts)
    (shadow_artifacts : DocumentKeyShadowRetrievalArtifacts) :
    publish_stored_document_key H pool contract_address key_id
      = PanicOr.panicked "not implemented"
    ∧ publish_document_key_store_error H pool contract_address key_id
      = PanicOr.panicked "not implemented"
    ∧ publish_retrieved_document_key_common H pool contract_address key_id
        requester common_artifacts
      = PanicOr.panicked "not implemented"
    ∧ publish_document_key_common_retrieval_error H pool contract_address key_id
        requester
      = PanicOr.panicked "not implemented"
    ∧ publish_retrieved_document_key_personal H pool contract_address key_id
        requester shadow_artifacts
      = PanicOr.panicked "not implemented"
    ∧ publish_document_key_personal_retrieval_error H pool contract_address key_id
        requester
      = PanicOr.panicked "not implemented"
    ∧ submittedTransactions
        (publish_stored_document_key H pool contract_address key_id) = []
    ∧ submittedTransactions
        (publish_document_key_store_error H pool contract_address key_id) = []
    ∧ submittedTransactions
        (publish_retrieved_document_key_common H pool contract_address key_id
          requester common_artifacts) = []
    ∧ submittedTransactions
        (publish_document_key_common_retrieval_error H pool contract_address
          key_id requester) = []
    ∧ submittedTransactions
        (publish_retrieved_document_key_personal H pool contract_address key_id
          requester shadow_artifacts) = []
    ∧ submittedTransactions
        (publish_document_key_personal_retrieval_error H pool contract_address
          key_id requester) = [] :=
  ⟨rfl, rfl, rfl, rfl, rfl, rfl, rfl, rfl, rfl, rfl, rfl, rfl⟩

/-!  ## Theorems: event classification and the block adapter  -/

/-- **C8**.  A `ServerKeyGenerationRequested(key_id, requester, threshold)`
event classifies to exactly one `GenerateServerKey` task with that key id,
the requester wrapped as `Requester::Address`, that threshold, and the
default origin. -/
theorem event_into_task_generation_requested (key_id : ServerKeyId)
    (requester_address : Address) (threshold : Nat) :
    event_into_task
        (SecretStoreEvent.ServerKeyGenerationRequested key_id requester_address
          threshold)
      = PanicOr.ok (some (BlockchainServiceTask.Regular (default : Address)
          (ServiceTask.GenerateServerKey key_id
            (Requester.Address requester_address) threshold))) := rfl

/-- Unfolding: an unrelated event at the head is dropped. -/
theorem new_tasks_cons_unrelated (tag : Nat) (l : List MaybeEvent) :
    new_tasks_of_events (MaybeEvent.unrelated tag :: l)
      = new_tasks_of_events l := rfl

/-- Unfolding: an unsupported Secret Store event at the head panics. -/
theorem new_tasks_cons_unsupported (tag : Nat) (l : List MaybeEvent) :
    new_tasks_of_events
        (MaybeEvent.secretStore (SecretStoreEvent.other tag) :: l)
      = PanicOr.panicked "not implemented" := rfl

/-- Unfolding: a generation-requested event at the head contributes its
task, keeping any panic of the remaining stream. -/
theorem new_tasks_cons_generation (k : ServerKeyId) (r : Address) (t : Nat)
    (l : List MaybeEvent) :
    new_tasks_of_events
        (MaybeEvent.secretStore
          (SecretStoreEvent.ServerKeyGenerationRequested k r t) :: l)
      = (match new_tasks_of_events l with
        | PanicOr.panicked message => PanicOr.panicked message
        | PanicOr.ok tasks =>
          PanicOr.ok (BlockchainServiceTask.Regular default
            (ServiceTask.GenerateServerKey k (Requester.Address r) t)
            :: tasks)) := rfl

/-- Helper: non-Secret-Store events are dropped from `new_tasks` without
affecting the rest of the event stream. -/
theorem new_tasks_of_events_drop_unrelated (tag : Nat) :
    ∀ (pre rest : List MaybeEvent),
      new_tasks_of_events (pre ++ MaybeEvent.unrelated tag :: rest)
        = new_tasks_of_events (pre ++ rest) := by
  intro pre
  induction pre with
  | nil =>
    intro rest
    rw [List.nil_append, List.nil_append, new_tasks_cons_unrelated]
  | cons ev pre ih =>
    intro rest
    rw [List.cons_append, List.cons_append]
    cases ev with
    | unrelated t2 =>
      rw [new_tasks_cons_unrelated, new_tasks_cons_unrelated]
      exact ih rest
    | secretStore sse =>
      cases sse with
      | ServerKeyGenerationRequested k r t =>
        rw [new_tasks_cons_generation, new_tasks_cons_generation, ih rest]
      | other t2 =>
        rw [new_tasks_cons_unsupported, new_tasks_cons_unsupported]

/-- Helper: an unsupported Secret Store event reached after a panic-free
prefix makes `new_tasks` hit `unimplemented!()`. -/
theorem new_tasks_of_events_panic_unsupported (tag : Nat) :
    ∀ (pre rest : List MaybeEvent) (tasks : List BlockchainServiceTask),
      new_tasks_of_events pre = PanicOr.ok tasks →
      new_tasks_of_events
          (pre ++ MaybeEvent.secretStore (SecretStoreEvent.other tag) :: rest)
        = PanicOr.panicked "not implemented" := by
  intro pre
  induction pre with
  | nil =>
    intro rest tasks _
    rw [List.nil_append, new_tasks_cons_unsupported]
  | cons ev pre ih =>
    intro rest tasks h
    rw [List.cons_append]
    cases ev with
    | unrelated t2 =>
      rw [new_tasks_cons_unrelated] at h
      rw [new_tasks_cons_unrelated]
      exact ih rest tasks h
    | secretStore sse =>
      cases sse with
      | other t2 =>
        rw [new_tasks_cons_unsupported] at h
        exact PanicOr.noConfusion h
      | ServerKeyGenerationRequested k r t =>
        rw [new_tasks_cons_generation] at h
        rw [new_tasks_cons_generation]
        cases hpre : new_tasks_of_events pre with
        | panicked m =>
          rw [hpre] at h
          exact PanicOr.noConfusion h
        | ok ts =>
          rw [ih rest ts hpre]

/-- **C3 counterexample**.  The claim says every event that does not
classify to a supported task kind is excluded from `new_tasks()` output
without signalling an error; but a block whose single event is an
unsupported Secret Store event makes `new_tasks()` panic
(`unimplemented!()`) instead of yielding the empty output. -/
theorem unsupported_event_fatal_counterexample :
    SubstrateBlock.new_tasks Nat unsupportedEventBlock
      = PanicOr.panicked "not implemented"
    ∧ SubstrateBlock.new_tasks Nat unsupportedEventBlock
      ≠ PanicOr.ok [] := by
  constructor
  · rfl
  · intro h
    exact PanicOr.noConfusion h

/-- **C3** (amended).  Events that are not Secret Store events at all are
silently dropped by `new_tasks()` without affecting later events; but a
Secret Store event of an unsupported kind is fatal: classification hits
`unimplemented!()` and the iteration panics.  The third conjunct records
that `SubstrateBlock::new_tasks` is exactly this classification over the
block's events. -/
theorem new_tasks_unsupported_events :
    (∀ (pre rest : List MaybeEvent) (tag : Nat),
      new_tasks_of_events (pre ++ MaybeEvent.unrelated tag :: rest)
        = new_tasks_of_events (pre ++ rest))
    ∧ (∀ (pre rest : List MaybeEvent) (tag : Nat)
        (tasks : List BlockchainServiceTask),
      new_tasks_of_events pre = PanicOr.ok tasks →
      new_tasks_of_events
          (pre ++ MaybeEvent.secretStore (SecretStoreEvent.other tag) :: rest)
        = PanicOr.panicked "not implemented")
    ∧ (∀ (H : Type) (b : SubstrateBlock H),
      SubstrateBlock.new_tasks H b
        = new_tasks_of_events (b.blockchain.block_events b.block_hash)) :=
  ⟨fun pre rest tag => new_tasks_of_events_drop_unrelated tag pre rest,
   fun pre rest tag tasks h =>
     new_tasks_of_events_panic_unsupported tag pre rest tasks h,
   fun _ _ => rfl⟩

/-- Witness for C3 (amended) at concrete event lists. -/
theorem new_tasks_unsupported_events_witness :
    new_tasks_of_events
        ([MaybeEvent.unrelated 3] ++ MaybeEvent.unrelated 4 ::
          [MaybeEvent.secretStore
            (SecretStoreEvent.ServerKeyGenerationRequested 1 2 3)])
      = new_tasks_of_events
        ([MaybeEvent.unrelated 3] ++
          [MaybeEvent.secretStore
            (SecretStoreEvent.ServerKeyGenerationRequested 1 2 3)])
    ∧ new_tasks_of_events
        ([MaybeEvent.unrelated 3] ++
          MaybeEvent.secretStore (SecretStoreEvent.other 0) :: [])
      = PanicOr.panicked "not implemented" :=
  ⟨new_tasks_unsupported_events.1 [MaybeEvent.unrelated 3]
      [MaybeEvent.secretStore
        (SecretStoreEvent.ServerKeyGenerationRequested 1 2 3)] 4,
   new_tasks_unsupported_events.2.1 [MaybeEvent.unrelated 3] [] 0 [] rfl⟩

/-- **C7 counterexample**.  The claim says `current_key_servers_set()`
reflects the source's view at this adapter's block.  At this concrete
input, two adapters over the same blockchain reference two genuinely
different blocks (their event lists differ) yet get the identical key
server set: the call passes no block reference at all (the trait queries
the best known block). -/
theorem key_servers_set_ignores_block_counterexample :
    blockAdapterA.block_hash ≠ blockAdapterB.block_hash
    ∧ twoBlockBlockchain.block_events blockAdapterA.block_hash
      ≠ twoBlockBlockchain.block_events blockAdapterB.block_hash
    ∧ SubstrateBlock.current_key_servers_set Nat blockAdapterA
      = SubstrateBlock.current_key_servers_set Nat blockAdapterB := by
  refine ⟨by decide, by decide, rfl⟩

/-- **C7** (amended).  `current_key_servers_set()` delegates directly to
the blockchain handle with no caching, but the trait query takes no block
reference: the answer is the source's best-known-block view and is
independent of this adapter's block reference. -/
theorem key_servers_set_delegates_best_block (H : Type)
    (b b2 : SubstrateBlock H) (hbc : b.blockchain = b2.blockchain) :
    SubstrateBlock.current_key_servers_set H b
      = b.blockchain.current_key_servers_set
    ∧ SubstrateBlock.current_key_servers_set H b
      = SubstrateBlock.current_key_servers_set H b2 := by
  refine ⟨rfl, ?_⟩
  simp [SubstrateBlock.current_key_servers_set, hbc]

/-- Witness for C7 (amended) at the two concrete adapters. -/
theorem key_servers_set_delegates_best_block_witness :
    SubstrateBlock.current_key_servers_set Nat blockAdapterA
      = blockAdapterA.blockchain.current_key_servers_set
    ∧ SubstrateBlock.current_key_servers_set Nat blockAdapterA
      = SubstrateBlock.current_key_servers_set Nat blockAdapterB :=
  key_servers_set_delegates_best_block Nat blockAdapterA blockAdapterB rfl

/-!  ## Theorems: the pending-task pager  -/

/-- The window constant is 16. -/
@[simp] theorem PENDING_RANGE_LENGTH_eq : PENDING_RANGE_LENGTH = 16 := rfl

/-- A non-empty buffer is popped from the front; range untouched. -/
theorem next_pop
    (get : Nat × Nat → Except String (List BlockchainServiceTask))
    (task : BlockchainServiceTask) (rest : List BlockchainServiceTask)
    (s e : Nat) :
    PendingTasksIterator.next get ⟨task :: rest, s, e⟩
      = (some task, ⟨rest, s, e⟩) := rfl

/-- An empty buffer with an empty remaining range is terminal. -/
theorem next_terminal
    (get : Nat × Nat → Except String (List BlockchainServiceTask)) (e : Nat) :
    PendingTasksIterator.next get ⟨[], e, e⟩ = (none, ⟨[], e, e⟩) := by
  simp [PendingTasksIterator.next]

/-- A fetch contributing at least one task emits the page's front; the
range advances to the next window exactly when the page is full. -/
theorem next_fetch_cons
    (get : Nat × Nat → Except String (List BlockchainServiceTask))
    (s e : Nat) (task : BlockchainServiceTask)
    (rest : List BlockchainServiceTask) (hse : s ≠ e)
    (hres : resultTasks (get (s, s + 16)) = task :: rest) :
    PendingTasksIterator.next get ⟨[], s, e⟩
      = (some task,
         ⟨rest, if rest.length + 1 = 16 then s + 16 else e, e⟩) := by
  by_cases hlen : rest.length + 1 = 16 <;>
    simp [PendingTasksIterator.next, PENDING_RANGE_LENGTH, hse, hres, hlen]

/-- A fetch contributing no task (empty page or failed query) returns
`None` and collapses the remaining range. -/
theorem next_fetch_nil
    (get : Nat × Nat → Except String (List BlockchainServiceTask))
    (s e : Nat) (hse : s ≠ e)
    (hres : resultTasks (get (s, s + 16)) = []) :
    PendingTasksIterator.next get ⟨[], s, e⟩ = (none, ⟨[], e, e⟩) := by
  simp [PendingTasksIterator.next, PENDING_RANGE_LENGTH, hse, hres]

/-- One run step on a `None`-returning state. -/
theorem pagerRun_next_none
    (get : Nat × Nat → Except String (List BlockchainServiceTask))
    (f : Nat) (it it' : PendingTasksIterator)
    (h : PendingTasksIterator.next get it = (none, it')) :
    pagerRun get (f + 1) it = ([], it') := by
  simp [pagerRun, h]

/-- One run step on a task-emitting state. -/
theorem pagerRun_next_some
    (get : Nat × Nat → Except String (List BlockchainServiceTask))
    (f : Nat) (it it' : PendingTasksIterator) (task : BlockchainServiceTask)
    (h : PendingTasksIterator.next get it = (some task, it')) :
    pagerRun get (f + 1) it
      = (task :: (pagerRun get f it').1, (pagerRun get f it').2) := by
  simp [pagerRun, h]

/-- A terminal pager stays terminal and emits nothing, for any fuel. -/
theorem pagerRun_terminal
    (get : Nat × Nat → Except String (List BlockchainServiceTask))
    (e f : Nat) :
    pagerRun get f ⟨[], e, e⟩ = ([], ⟨[], e, e⟩) := by
  cases f with
  | zero => rfl
  | succ f => exact pagerRun_next_none get f _ _ (next_terminal get e)

/-- The buffer is drained front-first before anything else happens. -/
theorem pagerRun_drain
    (get : Nat × Nat → Except String (List BlockchainServiceTask)) :
    ∀ (buf : List BlockchainServiceTask) (s e f : Nat),
      pagerRun get (buf.length + f) ⟨buf, s, e⟩
        = (buf ++ (pagerRun get f ⟨[], s, e⟩).1,
           (pagerRun get f ⟨[], s, e⟩).2) := by
  intro buf
  induction buf with
  | nil =>
    intro s e f
    simp
  | cons t ts ih =>
    intro s e f
    have hfuel : (t :: ts).length + f = (ts.length + f) + 1 := by
      simp [List.length_cons]
      omega
    rw [hfuel, pagerRun_next_some get _ _ _ _ (next_pop get t ts s e), ih s e f]
    simp

/-- A final page (any length other than 16) is emitted in full and the
pager then terminates with a collapsed range. -/
theorem pagerRun_last
    (get : Nat × Nat → Except String (List BlockchainServiceTask))
    (s e : Nat) (page : List BlockchainServiceTask) (f : Nat) (hse : s ≠ e)
    (hres : resultTasks (get (s, s + 16)) = page)
    (hlen : page.length ≠ 16) :
    pagerRun get (page.length + 1 + f) ⟨[], s, e⟩ = (page, ⟨[], e, e⟩) := by
  cases page with
  | nil =>
    have hfuel : ([] : List BlockchainServiceTask).length + 1 + f = f + 1 := by
      simp
      omega
    rw [hfuel, pagerRun_next_none get f _ _ (next_fetch_nil get s e hse hres)]
  | cons t ts =>
    have hne : ts.length + 1 ≠ 16 := by simpa using hlen
    have hnext := next_fetch_cons get s e t ts hse hres
    rw [if_neg hne] at hnext
    have hfuel : (t :: ts).length + 1 + f = (ts.length + (1 + f)) + 1 := by
      simp
      omega
    rw [hfuel, pagerRun_next_some get _ _ _ _ hnext,
      pagerRun_drain get ts e e (1 + f), pagerRun_terminal get e (1 + f)]
    simp

/-- A full 16-task page is emitted in full and scanning continues at the
next window. -/
theorem pagerRun_page
    (get : Nat × Nat → Except String (List BlockchainServiceTask))
    (s e : Nat) (page : List BlockchainServiceTask) (f : Nat) (hse : s ≠ e)
    (hres : resultTasks (get (s, s + 16)) = page)
    (hlen : page.length = 16) :
    pagerRun get (16 + f) ⟨[], s, e⟩
      = (page ++ (pagerRun get f ⟨[], s + 16, e⟩).1,
         (pagerRun get f ⟨[], s + 16, e⟩).2) := by
  cases page with
  | nil => simp at hlen
  | cons t ts =>
    have hlen' : ts.length + 1 = 16 := by simpa using hlen
    have hnext := next_fetch_cons get s e t ts hse hres
    rw [if_pos hlen'] at hnext
    have hfuel : 16 + f = (ts.length + f) + 1 := by omega
    rw [hfuel, pagerRun_next_some get _ _ _ _ hnext,
      pagerRun_drain get ts (s + 16) e f]
    simp

/-- The full scan: `k` full windows followed by a non-full window `k`
yield the window pages concatenated in order, ending in the collapsed
terminal state; stated from any starting window `j ≤ k`. -/
theorem pagerRun_scan
    (get : Nat × Nat → Except String (List BlockchainServiceTask))
    (pages : Nat → List BlockchainServiceTask) (k e : Nat)
    (hget : ∀ i, i ≤ k → get (16 * i, 16 * i + 16) = Except.ok (pages i))
    (hfull : ∀ i, i < k → (pages i).length = 16)
    (hshort : (pages k).length ≠ 16)
    (he : ∀ i, i ≤ k → 16 * i ≠ e) :
    ∀ n j, j + n = k → ∀ f,
      pagerRun get (16 * n + (pages k).length + 1 + f) ⟨[], 16 * j, e⟩
        = (((List.range' j (n + 1)).map pages).flatten, ⟨[], e, e⟩) := by
  intro n
  induction n with
  | zero =>
    intro j hj f
    have hj' : j = k := by omega
    subst hj'
    have hres : resultTasks (get (16 * j, 16 * j + 16)) = pages j := by
      rw [hget j le_rfl]
      rfl
    have hfuel : 16 * 0 + (pages j).length + 1 + f
        = (pages j).length + 1 + f := by omega
    rw [hfuel, pagerRun_last get (16 * j) e (pages j) f (he j le_rfl) hres hshort]
    simp [List.range'_one]
  | succ n ih =>
    intro j hj f
    have hjk : j < k := by omega
    have hres : resultTasks (get (16 * j, 16 * j + 16)) = pages j := by
      rw [hget j (by omega)]
      rfl
    have hfuel : 16 * (n + 1) + (pages k).length + 1 + f
        = 16 + (16 * n + (pages k).length + 1 + f) := by ring_nf
    rw [hfuel,
      pagerRun_page get (16 * j) e (pages j) _ (he j (by omega)) hres
        (hfull j hjk)]
    have hstart : 16 * j + 16 = 16 * (j + 1) := by ring
    rw [hstart, ih (j + 1) (by omega) f,
      show List.range' j (n + 1 + 1) = j :: List.range' (j + 1) (n + 1) from
        List.range'_succ j (n + 1) 1]
    simp

/-- **C2**.  For any query function serving full 16-task pages on the
first `k` windows and a short page on window `k + 1` (window index `k`),
the pager built with range `0..usize::MAX` yields exactly the
`k * 16 + short` tasks in page-arrival then intra-page order, reaches the
terminal state, and every subsequent `next()` (any further pull, any fuel)
yields nothing.  The theorem is category-agnostic: all four backlog
categories build this same iterator. -/
theorem pager_full_then_short_scan
    (get : Nat × Nat → Except String (List BlockchainServiceTask))
    (pages : Nat → List BlockchainServiceTask) (k : Nat)
    (hget : ∀ i, i ≤ k → get (16 * i, 16 * i + 16) = Except.ok (pages i))
    (hfull : ∀ i, i < k → (pages i).length = 16)
    (hshort : (pages k).length < 16)
    (hk : 16 * k < usizeMax) :
    (∀ extra,
      pagerRun get (16 * k + (pages k).length + 1 + extra) initIterator
        = (((List.range (k + 1)).map pages).flatten,
           ⟨[], usizeMax, usizeMax⟩))
    ∧ PendingTasksIterator.next get ⟨[], usizeMax, usizeMax⟩
      = (none, ⟨[], usizeMax, usizeMax⟩)
    ∧ ∀ g, pagerRun get g ⟨[], usizeMax, usizeMax⟩
      = ([], ⟨[], usizeMax, usizeMax⟩) := by
  have he : ∀ i, i ≤ k → 16 * i ≠ usizeMax := by
    intro i hi
    have h1 : 16 * i ≤ 16 * k := by omega
    omega
  refine ⟨?_, next_terminal get usizeMax,
    fun g => pagerRun_terminal get usizeMax g⟩
  intro extra
  have h := pagerRun_scan get pages k usizeMax hget hfull (by omega) he k 0
    (by omega) extra
  rw [List.range_eq_range']
  exact h

/-- Witness for C2 at the spec scenario: a 16-task window then a 2-task
window yield the 18 tasks and then nothing. -/
theorem pager_full_then_short_scan_witness :
    pagerRun scenarioGet (16 * 1 + (scenarioPages 1).length + 1 + 0) initIterator
      = (((List.range (1 + 1)).map scenarioPages).flatten,
         ⟨[], usizeMax, usizeMax⟩)
    ∧ PendingTasksIterator.next scenarioGet ⟨[], usizeMax, usizeMax⟩
      = (none, ⟨[], usizeMax, usizeMax⟩)
    ∧ pagerRun scenarioGet 1 ⟨[], usizeMax, usizeMax⟩
      = ([], ⟨[], usizeMax, usizeMax⟩) := by
  have h := pager_full_then_short_scan scenarioGet scenarioPages 1
    (by intro i hi; interval_cases i <;> rfl)
    (by intro i hi; interval_cases i; decide)
    (by decide)
    (by norm_num [usizeMax])
  exact ⟨h.1 0, h.2.1, h.2.2 1⟩

/-- Buffer non-empty: the pop step queries nothing. -/
theorem nextWindow_pop (t : BlockchainServiceTask)
    (rest : List BlockchainServiceTask) (s e : Nat) :
    nextWindow ⟨t :: rest, s, e⟩ = [] := rfl

/-- Terminal state: nothing is queried. -/
theorem nextWindow_terminal (e : Nat) : nextWindow ⟨[], e, e⟩ = [] := by
  simp [nextWindow]

/-- Empty buffer, non-empty range: exactly the next window is queried. -/
theorem nextWindow_fetch (s e : Nat) (hse : s ≠ e) :
    nextWindow ⟨[], s, e⟩ = [(s, s + 16)] := by
  simp [nextWindow, PENDING_RANGE_LENGTH, hse]

/-- One traced run step on a `None`-returning state. -/
theorem trace_next_none
    (get : Nat × Nat → Except String (List BlockchainServiceTask))
    (f : Nat) (it it' : PendingTasksIterator)
    (h : PendingTasksIterator.next get it = (none, it')) :
    pagerRunTrace get (f + 1) it = ([], nextWindow it, it') := by
  simp [pagerRunTrace, h]

/-- One traced run step on a task-emitting state. -/
theorem trace_next_some
    (get : Nat × Nat → Except String (List BlockchainServiceTask))
    (f : Nat) (it it' : PendingTasksIterator) (task : BlockchainServiceTask)
    (h : PendingTasksIterator.next get it = (some task, it')) :
    pagerRunTrace get (f + 1) it
      = (task :: (pagerRunTrace get f it').1,
         nextWindow it ++ (pagerRunTrace get f it').2.1,
         (pagerRunTrace get f it').2.2) := by
  simp [pagerRunTrace, h]

/-- A terminal pager queries nothing and emits nothing, for any fuel. -/
theorem trace_terminal
    (get : Nat × Nat → Except String (List BlockchainServiceTask))
    (e f : Nat) :
    pagerRunTrace get f ⟨[], e, e⟩ = ([], [], ⟨[], e, e⟩) := by
  cases f with
  | zero => rfl
  | succ f =>
    rw [trace_next_none get f _ _ (next_terminal get e), nextWindow_terminal]

/-- Draining the buffer queries nothing. -/
theorem trace_drain
    (get : Nat × Nat → Except String (List BlockchainServiceTask)) :
    ∀ (buf : List BlockchainServiceTask) (s e f : Nat),
      pagerRunTrace get (buf.length + f) ⟨buf, s, e⟩
        = (buf ++ (pagerRunTrace get f ⟨[], s, e⟩).1,
           (pagerRunTrace get f ⟨[], s, e⟩).2.1,
           (pagerRunTrace get f ⟨[], s, e⟩).2.2) := by
  intro buf
  induction buf with
  | nil =>
    intro s e f
    simp
  | cons t ts ih =>
    intro s e f
    have hfuel : (t :: ts).length + f = (ts.length + f) + 1 := by
      simp [List.length_cons]
      omega
    rw [hfuel, trace_next_some get _ _ _ _ (next_pop get t ts s e), ih s e f,
      nextWindow_pop]
    simp

/-- A state whose remaining range is already empty never queries, whatever
is still buffered. -/
theorem trace_windows_closed
    (get : Nat × Nat → Except String (List BlockchainServiceTask)) :
    ∀ (f : Nat) (buf : List BlockchainServiceTask) (e : Nat),
      (pagerRunTrace get f ⟨buf, e, e⟩).2.1 = [] := by
  intro f
  induction f with
  | zero =>
    intro buf e
    rfl
  | succ f ih =>
    intro buf e
    cases buf with
    | nil => rw [trace_terminal]
    | cons t ts =>
      rw [trace_next_some get f _ _ _ (next_pop get t ts e e), nextWindow_pop]
      simpa using ih ts e

/-- A final page of any length other than 16 is emitted in full after
exactly one query, and the pager then terminates. -/
theorem trace_last
    (get : Nat × Nat → Except String (List BlockchainServiceTask))
    (s e : Nat) (page : List BlockchainServiceTask) (f : Nat) (hse : s ≠ e)
    (hres : resultTasks (get (s, s + 16)) = page)
    (hlen : page.length ≠ 16) :
    pagerRunTrace get (page.length + 1 + f) ⟨[], s, e⟩
      = (page, [(s, s + 16)], ⟨[], e, e⟩) := by
  cases page with
  | nil =>
    have hfuel : ([] : List BlockchainServiceTask).length + 1 + f = f + 1 := by
      simp
      omega
    rw [hfuel, trace_next_none get f _ _ (next_fetch_nil get s e hse hres),
      nextWindow_fetch s e hse]
  | cons t ts =>
    have hne : ts.length + 1 ≠ 16 := by simpa using hlen
    have hnext := next_fetch_cons get s e t ts hse hres
    rw [if_neg hne] at hnext
    have hfuel : (t :: ts).length + 1 + f = (ts.length + (1 + f)) + 1 := by
      simp
      omega
    rw [hfuel, trace_next_some get _ _ _ _ hnext,
      trace_drain get ts e e (1 + f), trace_terminal get e (1 + f),
      nextWindow_fetch s e hse]
    simp

/-- **C10**.  If one window's successful query returns strictly more than
16 tasks, the pager emits all of them in order after that single query and
then terminates (the range collapses instead of advancing), because the
continuation test compares the post-extend buffer length with 16 — and a
fetch only ever happens on an empty buffer (third conjunct), which is what
makes the buffer length agree with the fetched page length. -/
theorem pager_over_long_page_terminates
    (get : Nat × Nat → Except String (List BlockchainServiceTask))
    (s e : Nat) (tasks : List BlockchainServiceTask) (hse : s ≠ e)
    (hget : get (s, s + 16) = Except.ok tasks) (hlen : 16 < tasks.length) :
    pagerRunTrace get (tasks.length + 1) ⟨[], s, e⟩
      = (tasks, [(s, s + 16)], ⟨[], e, e⟩)
    ∧ PendingTasksIterator.next get ⟨[], e, e⟩ = (none, ⟨[], e, e⟩)
    ∧ ∀ it : PendingTasksIterator, it.pending ≠ [] → nextWindow it = [] := by
  refine ⟨?_, next_terminal get e, ?_⟩
  · have hres : resultTasks (get (s, s + 16)) = tasks := by
      rw [hget]
      rfl
    have h := trace_last get s e tasks 0 hse hres (by omega)
    simpa using h
  · intro it hne
    obtain ⟨buf, s', e'⟩ := it
    cases buf with
    | nil => exact absurd rfl hne
    | cons t rest => exact nextWindow_pop t rest s' e'

/-- Witness for C10 at a concrete 17-task page. -/
theorem pager_over_long_page_terminates_witness :
    pagerRunTrace longPageGet (longPage.length + 1) ⟨[], 0, usizeMax⟩
      = (longPage, [(0, 0 + 16)], ⟨[], usizeMax, usizeMax⟩)
    ∧ PendingTasksIterator.next longPageGet ⟨[], usizeMax, usizeMax⟩
      = (none, ⟨[], usizeMax, usizeMax⟩)
    ∧ nextWindow ⟨[sampleTask 0], 0, usizeMax⟩ = [] := by
  have h := pager_over_long_page_terminates longPageGet 0 usizeMax longPage
    (by norm_num [usizeMax]) rfl (by decide)
  exact ⟨h.1, h.2.1, h.2.2 ⟨[sampleTask 0], 0, usizeMax⟩ (by simp)⟩

/-- `next` depends on the query function only through `resultTasks` of the
queried window: a failed query behaves exactly as a zero-length page. -/
theorem next_congr
    (get1 get2 : Nat × Nat → Except String (List BlockchainServiceTask))
    (hres : ∀ w, resultTasks (get1 w) = resultTasks (get2 w))
    (it : PendingTasksIterator) :
    PendingTasksIterator.next get1 it = PendingTasksIterator.next get2 it := by
  obtain ⟨buf, s, e⟩ := it
  cases buf with
  | cons t rest => rfl
  | nil =>
    by_cases hse : s = e
    · subst hse
      rw [next_terminal get1 s, next_terminal get2 s]
    · simp only [PendingTasksIterator.next, if_neg hse]
      rw [hres (s, s + PENDING_RANGE_LENGTH)]

/-- `pagerRun` depends on the query function only through `resultTasks`. -/
theorem pagerRun_congr
    (get1 get2 : Nat × Nat → Except String (List BlockchainServiceTask))
    (hres : ∀ w, resultTasks (get1 w) = resultTasks (get2 w)) :
    ∀ (f : Nat) (it : PendingTasksIterator),
      pagerRun get1 f it = pagerRun get2 f it := by
  intro f
  induction f with
  | zero =>
    intro it
    rfl
  | succ f ih =>
    intro it
    rcases h : PendingTasksIterator.next get2 it with ⟨o, it'⟩
    have h1 : PendingTasksIterator.next get1 it = (o, it') := by
      rw [next_congr get1 get2 hres it, h]
    cases o with
    | none => rw [pagerRun_next_none get1 f it it' h1,
        pagerRun_next_none get2 f it it' h]
    | some t =>
      rw [pagerRun_next_some get1 f it it' t h1,
        pagerRun_next_some get2 f it it' t h, ih it']

/-- Window starts strictly increase along any traced run: the pager never
re-issues a window, whatever the query function answers. -/
theorem trace_windows_mono
    (get : Nat × Nat → Except String (List BlockchainServiceTask)) :
    ∀ (f : Nat) (it : PendingTasksIterator),
      List.Chain' (fun a b : Nat × Nat => a.1 < b.1)
        ((pagerRunTrace get f it).2.1)
      ∧ ∀ w ∈ (pagerRunTrace get f it).2.1, it.rangeStart ≤ w.1 := by
  intro f
  induction f with
  | zero =>
    intro it
    exact ⟨List.chain'_nil, by simp [pagerRunTrace]⟩
  | succ f ih =>
    intro it
    obtain ⟨buf, s, e⟩ := it
    cases buf with
    | cons t rest =>
      rw [trace_next_some get f _ _ t (next_pop get t rest s e), nextWindow_pop]
      simpa using ih ⟨rest, s, e⟩
    | nil =>
      by_cases hse : s = e
      · subst hse
        rw [trace_terminal]
        exact ⟨List.chain'_nil, by simp⟩
      · cases hres : resultTasks (get (s, s + 16)) with
        | nil =>
          rw [trace_next_none get f _ _ (next_fetch_nil get s e hse hres),
            nextWindow_fetch s e hse]
          refine ⟨List.chain'_singleton _, ?_⟩
          intro w hw
          rcases List.mem_singleton.mp hw with rfl
          simp
        | cons t ts =>
          have hnext := next_fetch_cons get s e t ts hse hres
          by_cases hfull : ts.length + 1 = 16
          · rw [if_pos hfull] at hnext
            rw [trace_next_some get f _ _ t hnext, nextWindow_fetch s e hse]
            obtain ⟨hchain, hmem⟩ := ih ⟨ts, s + 16, e⟩
            constructor
            · rw [List.cons_append, List.nil_append, List.chain'_cons']
              refine ⟨?_, hchain⟩
              intro y hy
              have hy' := hmem y (List.mem_of_mem_head? hy)
              simp only at hy' ⊢
              omega
            · intro w hw
              rw [List.cons_append, List.nil_append] at hw
              rcases List.mem_cons.mp hw with rfl | hw'
              · simp
              · have hw2 := hmem w hw'
                simp only at hw2 ⊢
                omega
          · rw [if_neg hfull] at hnext
            rw [trace_next_some get f _ _ t hnext, nextWindow_fetch s e hse]
            have hclosed := trace_windows_closed get f ts e
            simp only [hclosed]
            exact ⟨by simp, by simp⟩

/-- **C6**.  (1) Along any traced run, the window starts passed to the
query function strictly increase, so no window is ever issued twice.
(2) The pager's behaviour depends on a query result only through the task
list it contributes, a failure contributing exactly the zero-length page.
(3) A failing query on a live state returns end-of-sequence and collapses
the range, terminating the category for the current scan pass.  The model
itself is a total function, matching the absence of panics in any
terminating scan. -/
theorem pager_failure_handling :
    (∀ (get : Nat × Nat → Except String (List BlockchainServiceTask))
        (f : Nat) (it : PendingTasksIterator),
      List.Chain' (fun a b : Nat × Nat => a.1 < b.1)
        ((pagerRunTrace get f it).2.1))
    ∧ (∀ (get1 get2 : Nat × Nat → Except String (List BlockchainServiceTask)),
      (∀ w, resultTasks (get1 w) = resultTasks (get2 w)) →
      ∀ (f : Nat) (it : PendingTasksIterator),
        pagerRun get1 f it = pagerRun get2 f it)
    ∧ (∀ (get : Nat × Nat → Except String (List BlockchainServiceTask))
        (s e : Nat) (msg : String),
      s ≠ e → get (s, s + 16) = Except.error msg →
      PendingTasksIterator.next get ⟨[], s, e⟩ = (none, ⟨[], e, e⟩)
      ∧ PendingTasksIterator.next get ⟨[], e, e⟩ = (none, ⟨[], e, e⟩)) := by
  refine ⟨fun get f it => (trace_windows_mono get f it).1,
    fun get1 get2 h f it => pagerRun_congr get1 get2 h f it,
    fun get s e msg hse hget => ⟨?_, next_terminal get e⟩⟩
  refine next_fetch_nil get s e hse ?_
  rw [hget]
  rfl

/-- Witness for C6 at a concrete always-failing query function. -/
theorem pager_failure_handling_witness :
    List.Chain' (fun a b : Nat × Nat => a.1 < b.1)
      ((pagerRunTrace alwaysFailGet 3 initIterator).2.1)
    ∧ pagerRun alwaysFailGet 3 initIterator
      = pagerRun alwaysEmptyGet 3 initIterator
    ∧ (PendingTasksIterator.next alwaysFailGet ⟨[], 0, 5⟩
        = (none, ⟨[], 5, 5⟩)
      ∧ PendingTasksIterator.next alwaysFailGet ⟨[], 5, 5⟩
        = (none, ⟨[], 5, 5⟩)) :=
  ⟨pager_failure_handling.1 alwaysFailGet 3 initIterator,
   pager_failure_handling.2.1 alwaysFailGet alwaysEmptyGet (fun _ => rfl) 3
     initIterator,
   pager_failure_handling.2.2 alwaysFailGet 0 5 "boom" (by decide) rfl⟩

/-!  ## Theorems: the chained pending_tasks iterator  -/

/-- One chain step on a state whose front pager returns `None` polls the
remaining pagers within the same call. -/
theorem chainNext_cons_none
    (get : Nat × Nat → Except String (List BlockchainServiceTask))
    (it it' : PendingTasksIterator) (rest : List ChainedCategory)
    (h : PendingTasksIterator.next get it = (none, it')) :
    chainNext ((get, it) :: rest) = chainNext rest := by
  simp [chainNext, h]

/-- One chain step on a state whose front pager emits a task. -/
theorem chainNext_cons_some
    (get : Nat × Nat → Except String (List BlockchainServiceTask))
    (it it' : PendingTasksIterator) (task : BlockchainServiceTask)
    (rest : List ChainedCategory)
    (h : PendingTasksIterator.next get it = (some task, it')) :
    chainNext ((get, it) :: rest) = (some task, (get, it') :: rest) := by
  simp [chainNext, h]

/-- One chain-run step on a `None`-returning state. -/
theorem chainRun_next_none (f : Nat) (cats cats' : List ChainedCategory)
    (h : chainNext cats = (none, cats')) :
    chainRun (f + 1) cats = ([], cats') := by
  simp [chainRun, h]

/-- One chain-run step on a task-emitting state. -/
theorem chainRun_next_some (f : Nat) (cats cats' : List ChainedCategory)
    (task : BlockchainServiceTask)
    (h : chainNext cats = (some task, cats')) :
    chainRun (f + 1) cats
      = (task :: (chainRun f cats').1, (chainRun f cats').2) := by
  simp [chainRun, h]

/-- An exhausted front pager is transparent to the chain's output. -/
theorem chainRun_skip
    (get : Nat × Nat → Except String (List BlockchainServiceTask))
    (it it' : PendingTasksIterator) (rest : List ChainedCategory)
    (h : PendingTasksIterator.next get it = (none, it')) :
    ∀ f, (chainRun f ((get, it) :: rest)).1 = (chainRun f rest).1 := by
  intro f
  cases f with
  | zero => rfl
  | succ f =>
    simp only [chainRun, chainNext_cons_none get it it' rest h]

/-- An empty chain emits nothing. -/
theorem chainRun_nil : ∀ f, chainRun f ([] : List ChainedCategory) = ([], []) := by
  intro f
  cases f with
  | zero => rfl
  | succ f => simp [chainRun, chainNext]

/-- The chain first emits everything a terminating front pager emits, then
behaves as the chain of the remaining pagers. -/
theorem chainRun_exhaust
    (get : Nat × Nat → Except String (List BlockchainServiceTask)) :
    ∀ (L : List BlockchainServiceTask) (it itF : PendingTasksIterator),
      pagerRun get (L.length + 1) it = (L, itF) →
      PendingTasksIterator.next get itF = (none, itF) →
      ∀ (g : Nat) (rest : List ChainedCategory),
        (chainRun (L.length + g) ((get, it) :: rest)).1
          = L ++ (chainRun g rest).1 := by
  intro L
  induction L with
  | nil =>
    intro it itF hrun hterm g rest
    simp only [List.length_nil] at hrun
    have hnext : PendingTasksIterator.next get it = (none, itF) := by
      rcases h : PendingTasksIterator.next get it with ⟨o, it'⟩
      cases o with
      | none =>
        rw [pagerRun_next_none get 0 it it' h] at hrun
        simp only [Prod.mk.injEq, true_and] at hrun
        rw [hrun]
      | some t =>
        rw [pagerRun_next_some get 0 it it' t h] at hrun
        simp [pagerRun] at hrun
    simp only [List.length_nil, Nat.zero_add, List.nil_append]
    exact chainRun_skip get it itF rest hnext g
  | cons t L ih =>
    intro it itF hrun hterm g rest
    simp only [List.length_cons] at hrun
    rcases h : PendingTasksIterator.next get it with ⟨o, it1⟩
    cases o with
    | none =>
      rw [pagerRun_next_none get (L.length + 1) it it1 h] at hrun
      simp at hrun
    | some t' =>
      rw [pagerRun_next_some get (L.length + 1) it it1 t' h] at hrun
      simp only [Prod.mk.injEq, List.cons.injEq] at hrun
      obtain ⟨⟨rfl, hR1⟩, hR2⟩ := hrun
      have hR : pagerRun get (L.length + 1) it1 = (L, itF) :=
        Prod.ext_iff.mpr ⟨hR1, hR2⟩
      have hfuel : (t' :: L).length + g = (L.length + g) + 1 := by
        simp [List.length_cons]
        omega
      rw [hfuel,
        chainRun_next_some (L.length + g) _ _ t'
          (chainNext_cons_some get it it1 t' rest h)]
      simp only
      rw [ih it1 itF hR hterm g rest]
      simp

/-- A category with a canonical terminating backlog runs to exhaustion:
its pager emits exactly `backlogOf pages k` and reaches the terminal
state. -/
theorem category_exhausts
    (get : Nat × Nat → Except String (List BlockchainServiceTask))
    (pages : Nat → List BlockchainServiceTask) (k : Nat)
    (h : CategoryBacklog get pages k) :
    pagerRun get ((backlogOf pages k).length + 1) initIterator
      = (backlogOf pages k, ⟨[], usizeMax, usizeMax⟩)
    ∧ PendingTasksIterator.next get ⟨[], usizeMax, usizeMax⟩
      = (none, ⟨[], usizeMax, usizeMax⟩) := by
  obtain ⟨hget, hfull, hshort, hk⟩ := h
  have hlen : (backlogOf pages k).length = 16 * k + (pages k).length := by
    clear hget hshort hk
    induction k with
    | zero =>
      rw [backlogOf, List.range_succ]
      simp
    | succ k ih =>
      have hfull' : ∀ i, i < k → (pages i).length = 16 := fun i hi =>
        hfull i (by omega)
      have hk16 : (pages k).length = 16 := hfull k (by omega)
      rw [backlogOf, List.range_succ, List.map_append, List.flatten_append,
        List.length_append,
        show ((List.range (k + 1)).map pages).flatten = backlogOf pages k
          from rfl,
        ih hfull']
      simp [hk16]
      ring
  have he : ∀ i, i ≤ k → 16 * i ≠ usizeMax := by
    intro i hi
    have h1 : 16 * i ≤ 16 * k := by omega
    omega
  refine ⟨?_, next_terminal get usizeMax⟩
  have hscan := pagerRun_scan get pages k usizeMax hget hfull (by omega) he k 0
    (by omega) 0
  rw [hlen, backlogOf, List.range_eq_range']
  exact hscan

/-- **C4**.  For a block whose four backlog categories all have non-empty
canonical backlogs, `pending_tasks()` emits exactly the concatenation — in
the fixed order generation, retrieval, document store, document shadow
retrieval — of the four per-category backlogs, never interleaved. -/
theorem pending_tasks_concatenates_categories (H : Type)
    (b : SubstrateBlock H)
    (pagesG pagesR pagesS pagesD : Nat → List BlockchainServiceTask)
    (kG kR kS kD : Nat)
    (hG : CategoryBacklog (b.blockchain.server_key_generation_tasks b.block_hash)
      pagesG kG)
    (hR : CategoryBacklog (b.blockchain.server_key_retrieval_tasks b.block_hash)
      pagesR kR)
    (hS : CategoryBacklog (b.blockchain.document_key_store_tasks b.block_hash)
      pagesS kS)
    (hD : CategoryBacklog
      (b.blockchain.document_key_shadow_retrieval_tasks b.block_hash) pagesD kD)
    (_hneG : backlogOf pagesG kG ≠ []) (_hneR : backlogOf pagesR kR ≠ [])
    (_hneS : backlogOf pagesS kS ≠ []) (_hneD : backlogOf pagesD kD ≠ []) :
    ∀ extra,
      (chainRun ((backlogOf pagesG kG).length + ((backlogOf pagesR kR).length
          + ((backlogOf pagesS kS).length
            + ((backlogOf pagesD kD).length + extra))))
        (SubstrateBlock.pending_tasks H b)).1
      = backlogOf pagesG kG ++ (backlogOf pagesR kR
          ++ (backlogOf pagesS kS ++ backlogOf pagesD kD)) := by
  intro extra
  obtain ⟨hrunG, htermG⟩ := category_exhausts _ pagesG kG hG
  obtain ⟨hrunR, htermR⟩ := category_exhausts _ pagesR kR hR
  obtain ⟨hrunS, htermS⟩ := category_exhausts _ pagesS kS hS
  obtain ⟨hrunD, htermD⟩ := category_exhausts _ pagesD kD hD
  rw [SubstrateBlock.pending_tasks,
    chainRun_exhaust _ _ _ _ hrunG htermG,
    chainRun_exhaust _ _ _ _ hrunR htermR,
    chainRun_exhaust _ _ _ _ hrunS htermS,
    chainRun_exhaust _ _ _ _ hrunD htermD,
    chainRun_nil extra]
  simp

/-- Witness for C4 at a concrete block with the four non-empty one-page
backlogs `[1,2]`, `[3]`, `[4]`, `[5]`. -/
theorem pending_tasks_concatenates_categories_witness :
    (chainRun ((backlogOf wPagesGen 0).length + ((backlogOf wPagesRet 0).length
        + ((backlogOf wPagesStore 0).length
          + ((backlogOf wPagesShadow 0).length + 0))))
      (SubstrateBlock.pending_tasks Nat fourCategoryBlock)).1
    = backlogOf wPagesGen 0 ++ (backlogOf wPagesRet 0
        ++ (backlogOf wPagesStore 0 ++ backlogOf wPagesShadow 0)) := by
  have hcat : ∀ (pages : Nat → List BlockchainServiceTask)
      (get : Nat × Nat → Except String (List BlockchainServiceTask)),
      get (16 * 0, 16 * 0 + 16) = Except.ok (pages 0) →
      (pages 0).length < 16 →
      CategoryBacklog get pages 0 := by
    intro pages get hq hlen
    refine ⟨?_, ?_, hlen, by norm_num [usizeMax]⟩
    · intro i hi
      interval_cases i
      exact hq
    · intro i hi
      omega
  exact pending_tasks_concatenates_categories Nat fourCategoryBlock
    wPagesGen wPagesRet wPagesStore wPagesShadow 0 0 0 0
    (hcat wPagesGen _ rfl (by decide)) (hcat wPagesRet _ rfl (by decide))
    (hcat wPagesStore _ rfl (by decide)) (hcat wPagesShadow _ rfl (by decide))
    (by decide) (by decide) (by decide) (by decide) 0

end SecretStoreService
